import Mathlib

/-!
Shallow embedding of `src/golf_swing_app.py` (Golf Swing Analyzer backend).

The database (two SQLAlchemy tables, `users` and `swings`) is modelled as
lists of records; the blob store (`uploads/` directory) as a list of stored
paths.  `datetime.utcnow()` is modelled as an integer timestamp (seconds)
passed in as `now`; the rolling 30-day window cutoff `now - timedelta(days=30)`
becomes `now - 30 * 86400`.  `uuid.uuid4()` outputs are modelled as explicit
string arguments (`fuid`, `fsid`); freshness is hypothesised where a claim
needs it.  `random.randint(lo, hi)` draws are modelled as arguments
constrained to `lo ≤ v ∧ v ≤ hi`.

Python float arithmetic in `apply_style_bias` (`int(min(100, attrs[k] * m))`
with m ∈ {1.05, 1.06, 1.12, 0.98, 1.20, 0.95, 1.10}) and in
`overall_from_attrs` (`int(round(sum(...) / len(...)))`) is embedded as exact
integer arithmetic (`min 100 (v * num / 100)` and `(s + 2) / 5`); over the
whole reachable domain (attribute values 0–1000, sums 0–2000) the binary64
computation and the exact one agree value-for-value, so the embedding is
exact on every input the program can produce.

HTTP handlers that can `raise HTTPException` return
`Except HTTPError α × DB`: the final database state is always reported, and
the first component is the HTTP outcome (`.ok` body or `.error` exception).
-/

/-- The `User` ORM model (`users` table): id (primary key), name, optional
handicap, style choice (default "classic"), premium flag (default false),
optional subscription plan. -/
structure User where
  id : String
  name : String
  handicap : Option Int := none
  style_choice : String := "classic"
  is_premium : Bool := false
  subscription_plan : Option String := none
deriving Repr, DecidableEq

/-- The `Swing` ORM model (`swings` table): id, owning user id, stored file
path, processed flag (default false), nullable score columns, style label,
creation timestamp (default `datetime.utcnow` at insert, here the request's
`now`). -/
structure Swing where
  id : String
  user_id : String
  s3_video_path : String
  processed : Bool := false
  overall_score : Option Int := none
  power : Option Int := none
  accuracy : Option Int := none
  consistency : Option Int := none
  balance : Option Int := none
  style_score : Option Int := none
  style_label : Option String := none
  created_at : Int
deriving Repr, DecidableEq

/-- Persistent state: the two tables plus the blob store (paths written
under `uploads/`). -/
structure DB where
  users : List User
  swings : List Swing
  blobs : List String
deriving Repr, DecidableEq

/-- Embeds `db.query(User).filter(User.id == uid).first()`. -/
def findUser (db : DB) (uid : String) : Option User :=
  db.users.find? (fun u => u.id == uid)

/-- Embeds `db.query(Swing).filter(Swing.user_id == uid, Swing.created_at >= cutoff).count()`. -/
def countSwingsInWindow (db : DB) (uid : String) (cutoff : Int) : Nat :=
  (db.swings.filter (fun s => s.user_id == uid && cutoff ≤ s.created_at)).length

/-- The five attribute values produced by the scoring pipeline. -/
structure Attrs where
  power : Nat
  accuracy : Nat
  consistency : Nat
  balance : Nat
  style : Nat
deriving Repr, DecidableEq

/-- Ranges of `compute_base_attributes`: each attribute is
`random.randint(lo, hi)` with the per-attribute bounds of the source. -/
def baseAttrsRange (a : Attrs) : Prop :=
  55 ≤ a.power ∧ a.power ≤ 90 ∧
  50 ≤ a.accuracy ∧ a.accuracy ≤ 90 ∧
  45 ≤ a.consistency ∧ a.consistency ≤ 90 ∧
  55 ≤ a.balance ∧ a.balance ≤ 95 ∧
  50 ≤ a.style ∧ a.style ≤ 95

instance (a : Attrs) : Decidable (baseAttrsRange a) := by
  unfold baseAttrsRange; infer_instance

/-- Embeds `int(min(100, v * m))` with multiplier `m = num / 100`; exact integer
form of the source's float computation (they agree on all reachable
inputs). -/
def biasMul (v num : Nat) : Nat := min 100 (v * num / 100)

/-- Embeds `apply_style_bias(attrs, style_choice)`: the per-style multiplier table,
applied to the named attributes, each result capped at 100 and truncated;
styles outside the table leave `attrs` unchanged. -/
def apply_style_bias (attrs : Attrs) (style_choice : String) : Attrs :=
  if style_choice = "classic" then
    { attrs with accuracy := biasMul attrs.accuracy 105,
                 consistency := biasMul attrs.consistency 106,
                 style := biasMul attrs.style 105 }
  else if style_choice = "power" then
    { attrs with power := biasMul attrs.power 112,
                 accuracy := biasMul attrs.accuracy 98 }
  else if style_choice = "flashy" then
    { attrs with style := biasMul attrs.style 120,
                 consistency := biasMul attrs.consistency 95 }
  else if style_choice = "minimalist" then
    { attrs with consistency := biasMul attrs.consistency 110,
                 balance := biasMul attrs.balance 105,
                 style := biasMul attrs.style 95 }
  else attrs

/-- Embeds `sum(attrs.values())`. -/
def attrsSum (a : Attrs) : Nat :=
  a.power + a.accuracy + a.consistency + a.balance + a.style

/-- Embeds `overall_from_attrs(attrs) = int(round(sum(attrs.values()) / len(attrs)))`:
nearest integer to `sum / 5` (a tie `x.5` is impossible since the sum is an
integer), in exact form `(sum + 2) / 5`. -/
def overall_from_attrs (a : Attrs) : Nat := (attrsSum a + 2) / 5

/-- Embeds `process_swing(video_path, style_choice)`: bias the (randomly drawn,
here given) base attributes by the style, then reduce to the overall
score.  The video path is ignored by the source. -/
def process_swing (base : Attrs) (style_choice : String) : Attrs × Nat :=
  let attrs := apply_style_bias base style_choice
  (attrs, overall_from_attrs attrs)

/-- An `HTTPException(status_code, detail)`. -/
structure HTTPError where
  status_code : Nat
  detail : String
deriving Repr, DecidableEq

/-- The 403 raised when the free-plan window quota is exhausted. -/
def planLimitError : HTTPError :=
  ⟨403, "Free plan limit reached. Upgrade to Premium for unlimited uploads."⟩

/-- The 400 raised when the filename fails the extension guard. -/
def badFileTypeError : HTTPError :=
  ⟨400, "Please upload a video file (mp4/mov/mkv/avi)."⟩

/-- Python `str.lower()` on the character sequence (ASCII case fold, as
`Char.toLower`). -/
def lowerStr (s : String) : String := ⟨s.data.map Char.toLower⟩

/-- Python `str.endswith(suffix)`: the suffix test on the character
sequence. -/
def endsWithStr (s suffix : String) : Bool := suffix.data.isSuffixOf s.data

/-- Embeds `file.filename.lower().endswith((".mp4", ".mov", ".mkv", ".avi"))`. -/
def allowedExt (filename : String) : Bool :=
  let lo := lowerStr filename
  endsWithStr lo ".mp4" || endsWithStr lo ".mov" ||
    endsWithStr lo ".mkv" || endsWithStr lo ".avi"

/-- Step 1 of `upload_swing`: the user lookup
`db.query(User).filter(User.id == user_id).first() if user_id else None`
(Python truthiness: a missing or empty `user_id` skips the query). -/
def resolveUser (db : DB) (user_id : Option String) : Option User :=
  match user_id with
  | some uid => if uid = "" then none else findUser db uid
  | none => none

/-- The user the upload runs as: the resolved user, or a fresh
`User(id=fuid, name="Guest", style_choice=style)` guest. -/
def uploadUser (db : DB) (user_id : Option String) (style fuid : String) : User :=
  (resolveUser db user_id).getD { id := fuid, name := "Guest", style_choice := style }

/-- The database after step 1 (the guest row is added and committed when no
user resolved). -/
def uploadDbAfterResolve (db : DB) (user_id : Option String) (style fuid : String) : DB :=
  match resolveUser db user_id with
  | some _ => db
  | none => { db with users := db.users ++ [uploadUser db user_id style fuid] }

/-- The entitlement gate of `upload_swing`: premium users always pass; a
free user passes iff fewer than 3 of their swings have
`created_at ≥ now - 30 days`. -/
def entitlementAllows (db : DB) (user : User) (now : Int) : Bool :=
  user.is_premium || decide (countSwingsInWindow db user.id (now - 30 * 86400) < 3)

/-- Response body of a successful `POST /upload-swing/`. -/
structure UploadResponse where
  swing_id : String
  attributes : Attrs
  overall_score : Nat
  is_premium : Bool
deriving Repr, DecidableEq

/-- Handler for `POST /upload-swing/` (`upload_swing`): resolve or create the user,
apply the entitlement gate, validate the filename extension, write the blob
and the `Swing` row (processed false, scores null, style label, timestamp
`now`), score, and return body plus final database state. -/
def upload_swing (db : DB) (filename : String) (user_id : Option String)
    (style : String) (now : Int) (fuid fsid savePath : String) (base : Attrs) :
    Except HTTPError UploadResponse × DB :=
  let user := uploadUser db user_id style fuid
  let db1 := uploadDbAfterResolve db user_id style fuid
  if entitlementAllows db1 user now = false then
    (.error planLimitError, db1)
  else if allowedExt filename = false then
    (.error badFileTypeError, db1)
  else
    let db2 := { db1 with blobs := db1.blobs ++ [savePath] }
    let swing : Swing := { id := fsid, user_id := user.id, s3_video_path := savePath,
                           processed := false, style_label := some style, created_at := now }
    let db3 := { db2 with swings := db2.swings ++ [swing] }
    let scored := process_swing base style
    (.ok { swing_id := swing.id, attributes := scored.1, overall_score := scored.2,
           is_premium := user.is_premium }, db3)

/-- Handler for `POST /ensure-user` (`ensure_user`): insert a fresh Guest user and
return its id. -/
def ensure_user (db : DB) (fuid : String) : String × DB :=
  let u : User := { id := fuid, name := "Guest" }
  (u.id, { db with users := db.users ++ [u] })

/-- Response body of `GET /user/{user_id}`. -/
structure UserInfo where
  user_id : String
  is_premium : Bool
  subscription_plan : Option String
  handicap : Option Int
  style_choice : String
deriving Repr, DecidableEq

/-- Handler for `GET /user/{user_id}` (`get_user`): 404 when the id is unknown,
otherwise the user's public fields.  Read-only. -/
def get_user (db : DB) (uid : String) : Except HTTPError UserInfo :=
  match findUser db uid with
  | none => .error ⟨404, "User not found"⟩
  | some u => .ok ⟨u.id, u.is_premium, u.subscription_plan, u.handicap, u.style_choice⟩

/-- A Stripe event as produced by `stripe.Webhook.construct_event`:
its type string and the session's `client_reference_id` (possibly absent). -/
structure StripeEvent where
  type : String
  client_reference_id : Option String
deriving Repr, DecidableEq

/-- Body returned by the webhook endpooint: either the swallowed
verification error `{"error": str(e)}` or `{"status": "success"}`. -/
inductive WebhookBody where
  | error (msg : String)
  | success
deriving Repr, DecidableEq

/-- The in-place ORM mutation of `stripe_webhook`: load the first user with
the given id and set `is_premium = True`, `subscription_plan = "monthly"`;
no row when the id matches none. -/
def upgradeFirstUser (users : List User) (uid : String) : List User :=
  match users with
  | [] => []
  | u :: rest =>
    if u.id = uid then
      { u with is_premium := true, subscription_plan := some "monthly" } :: rest
    else
      u :: upgradeFirstUser rest uid

/-- Handler for `POST /stripe-webhook/` (`stripe_webhook`).  `verification` models
`stripe.Webhook.construct_event`: `.error e` when it raises.  A failed
verification is swallowed into the returned `{"error": ...}` body; a
verified `checkout.session.completed` event upgrades the referenced user if
it exists; the HTTP outcome is always `.ok` (status 200). -/
def stripe_webhook (db : DB) (verification : Except String StripeEvent) :
    Except HTTPError WebhookBody × DB :=
  match verification with
  | .error e => (.ok (.error e), db)
  | .ok event =>
    if event.type = "checkout.session.completed" then
      match event.client_reference_id with
      | some uid => (.ok .success, { db with users := upgradeFirstUser db.users uid })
      | none => (.ok .success, db)
    else
      (.ok .success, db)

/-- One observable state transition of the system: any handler invocation.
`GET /`, `GET /user/{id}`, `POST /create-checkout-session/` and
`GET /health` never touch the database and are covered by `readonly`. -/
inductive Step : DB → DB → Prop where
  | ensureUser (db : DB) (fuid : String) : Step db (ensure_user db fuid).2
  | uploadSwing (db : DB) (filename : String) (user_id : Option String)
      (style : String) (now : Int) (fuid fsid savePath : String) (base : Attrs) :
      Step db (upload_swing db filename user_id style now fuid fsid savePath base).2
  | stripeWebhook (db : DB) (verification : Except String StripeEvent) :
      Step db (stripe_webhook db verification).2
  | readonly (db : DB) : Step db db

/-! ### Scoring lemmas -/

theorem biasMul_le_100 (v num : Nat) : biasMul v num ≤ 100 :=
  min_le_left _ _

/-- Nearest-integer form of the overall score: `(s + 2) / 5` is exactly the
rounding of `s / 5` to the nearest integer. -/
theorem nat_div_round_eq (s : ℕ) :
    (((s + 2) / 5 : ℕ) : ℤ) = round ((s : ℚ) / 5) := by
  rw [round_eq]
  have h : (s : ℚ) / 5 + 1 / 2 = ((2 * (s : ℤ) + 5 : ℤ) : ℚ) / ((10 : ℕ) : ℚ) := by
    push_cast; ring
  rw [h, Rat.floor_intCast_div_natCast]
  omega

theorem overall_from_attrs_round (a : Attrs) :
    ((overall_from_attrs a : ℕ) : ℤ) = round ((attrsSum a : ℚ) / 5) :=
  nat_div_round_eq (attrsSum a)

/-- Every attribute after the style bias stays at most 100 whenever the
base attributes are in the ranges of `compute_base_attributes`. -/
theorem apply_style_bias_le_100 (base : Attrs) (style : String)
    (h : baseAttrsRange base) :
    (apply_style_bias base style).power ≤ 100 ∧
    (apply_style_bias base style).accuracy ≤ 100 ∧
    (apply_style_bias base style).consistency ≤ 100 ∧
    (apply_style_bias base style).balance ≤ 100 ∧
    (apply_style_bias base style).style ≤ 100 := by
  obtain ⟨_, hp, _, ha, _, hc, _, hb, _, hs⟩ := h
  unfold apply_style_bias
  split_ifs <;>
    refine ⟨?_, ?_, ?_, ?_, ?_⟩ <;>
    dsimp only <;>
    first
      | exact biasMul_le_100 _ _
      | omega

/-- C2: for every style selector (recognized or not) and every base draw in
range, `process_swing` returns five attributes each an integer in `[0, 100]`
and an overall equal to the rounded mean of the five. -/
theorem process_swing_contract (base : Attrs) (style : String)
    (h : baseAttrsRange base) :
    (process_swing base style).1.power ≤ 100 ∧
    (process_swing base style).1.accuracy ≤ 100 ∧
    (process_swing base style).1.consistency ≤ 100 ∧
    (process_swing base style).1.balance ≤ 100 ∧
    (process_swing base style).1.style ≤ 100 ∧
    (((process_swing base style).2 : ℕ) : ℤ) =
      round ((attrsSum (process_swing base style).1 : ℚ) / 5) := by
  obtain ⟨h1, h2, h3, h4, h5⟩ := apply_style_bias_le_100 base style h
  exact ⟨h1, h2, h3, h4, h5, overall_from_attrs_round (apply_style_bias base style)⟩

/-- Witness for C2 at a concrete in-range draw and the "power" style. -/
theorem process_swing_contract_witness :
    baseAttrsRange ⟨60, 70, 80, 60, 90⟩ ∧
    ((process_swing ⟨60, 70, 80, 60, 90⟩ "power").1.power ≤ 100 ∧
     (process_swing ⟨60, 70, 80, 60, 90⟩ "power").1.accuracy ≤ 100 ∧
     (process_swing ⟨60, 70, 80, 60, 90⟩ "power").1.consistency ≤ 100 ∧
     (process_swing ⟨60, 70, 80, 60, 90⟩ "power").1.balance ≤ 100 ∧
     (process_swing ⟨60, 70, 80, 60, 90⟩ "power").1.style ≤ 100 ∧
     (((process_swing ⟨60, 70, 80, 60, 90⟩ "power").2 : ℕ) : ℤ) =
       round ((attrsSum (process_swing ⟨60, 70, 80, 60, 90⟩ "power").1 : ℚ) / 5)) :=
  ⟨by decide, process_swing_contract ⟨60, 70, 80, 60, 90⟩ "power" (by decide)⟩

/-- C9: the style bias applies exactly the fixed multiplier table ("power"
multiplies power by 1.12 and accuracy by 0.98, "classic"/"flashy"/
"minimalist" as in the source), each multiplied value clamped to 100 and
truncated to an integer, and leaves the attributes unchanged for any
selector outside the table. -/
theorem apply_style_bias_table (attrs : Attrs) (style : String)
    (h1 : style ≠ "classic") (h2 : style ≠ "power")
    (h3 : style ≠ "flashy") (h4 : style ≠ "minimalist") :
    apply_style_bias attrs "power" =
      { attrs with power := min 100 (attrs.power * 112 / 100),
                   accuracy := min 100 (attrs.accuracy * 98 / 100) } ∧
    apply_style_bias attrs "classic" =
      { attrs with accuracy := min 100 (attrs.accuracy * 105 / 100),
                   consistency := min 100 (attrs.consistency * 106 / 100),
                   style := min 100 (attrs.style * 105 / 100) } ∧
    apply_style_bias attrs "flashy" =
      { attrs with style := min 100 (attrs.style * 120 / 100),
                   consistency := min 100 (attrs.consistency * 95 / 100) } ∧
    apply_style_bias attrs "minimalist" =
      { attrs with consistency := min 100 (attrs.consistency * 110 / 100),
                   balance := min 100 (attrs.balance * 105 / 100),
                   style := min 100 (attrs.style * 95 / 100) } ∧
    apply_style_bias attrs style = attrs := by
  refine ⟨rfl, rfl, rfl, rfl, ?_⟩
  unfold apply_style_bias
  rw [if_neg h1, if_neg h2, if_neg h3, if_neg h4]

/-- Witness for C9 at a concrete attribute tuple and the unrecognized
selector "robot". -/
theorem apply_style_bias_table_witness :
    apply_style_bias ⟨60, 70, 80, 60, 90⟩ "power" =
      { power := min 100 (60 * 112 / 100), accuracy := min 100 (70 * 98 / 100),
        consistency := 80, balance := 60, style := 90 } ∧
    apply_style_bias ⟨60, 70, 80, 60, 90⟩ "robot" = ⟨60, 70, 80, 60, 90⟩ := by
  have h := apply_style_bias_table ⟨60, 70, 80, 60, 90⟩ "robot"
    (by decide) (by decide) (by decide) (by decide)
  exact ⟨h.1, h.2.2.2.2⟩

/-! ### Upload handler lemmas -/

theorem uploadDbAfterResolve_swings (db : DB) (user_id : Option String)
    (style fuid : String) :
    (uploadDbAfterResolve db user_id style fuid).swings = db.swings := by
  unfold uploadDbAfterResolve; split <;> rfl

theorem uploadDbAfterResolve_blobs (db : DB) (user_id : Option String)
    (style fuid : String) :
    (uploadDbAfterResolve db user_id style fuid).blobs = db.blobs := by
  unfold uploadDbAfterResolve; split <;> rfl

theorem uploadDbAfterResolve_users_cases (db : DB) (user_id : Option String)
    (style fuid : String) :
    (uploadDbAfterResolve db user_id style fuid).users = db.users ∨
    (uploadDbAfterResolve db user_id style fuid).users =
      db.users ++ [uploadUser db user_id style fuid] := by
  unfold uploadDbAfterResolve; split
  · exact Or.inl rfl
  · exact Or.inr rfl

theorem countSwingsInWindow_congr (db db' : DB) (uid : String) (cutoff : Int)
    (h : db.swings = db'.swings) :
    countSwingsInWindow db uid cutoff = countSwingsInWindow db' uid cutoff := by
  unfold countSwingsInWindow; rw [h]

/-- Outcome of `upload_swing` when the entitlement gate denies. -/
theorem upload_swing_denied (db : DB) (filename : String) (user_id : Option String)
    (style : String) (now : Int) (fuid fsid savePath : String) (base : Attrs)
    (hgate : entitlementAllows (uploadDbAfterResolve db user_id style fuid)
               (uploadUser db user_id style fuid) now = false) :
    upload_swing db filename user_id style now fuid fsid savePath base =
      (Except.error planLimitError, uploadDbAfterResolve db user_id style fuid) := by
  simp [upload_swing, hgate]

/-- Outcome of `upload_swing` when the gate allows but the extension guard
fails. -/
theorem upload_swing_badfile (db : DB) (filename : String) (user_id : Option String)
    (style : String) (now : Int) (fuid fsid savePath : String) (base : Attrs)
    (hgate : entitlementAllows (uploadDbAfterResolve db user_id style fuid)
               (uploadUser db user_id style fuid) now = true)
    (hext : allowedExt filename = false) :
    upload_swing db filename user_id style now fuid fsid savePath base =
      (Except.error badFileTypeError, uploadDbAfterResolve db user_id style fuid) := by
  simp [upload_swing, hgate, hext]

/-- Outcome of `upload_swing` when the gate allows and the extension guard
passes: blob written, swing row inserted, scores returned. -/
theorem upload_swing_accepted (db : DB) (filename : String) (user_id : Option String)
    (style : String) (now : Int) (fuid fsid savePath : String) (base : Attrs)
    (hgate : entitlementAllows (uploadDbAfterResolve db user_id style fuid)
               (uploadUser db user_id style fuid) now = true)
    (hext : allowedExt filename = true) :
    upload_swing db filename user_id style now fuid fsid savePath base =
      (Except.ok { swing_id := fsid,
                   attributes := (process_swing base style).1,
                   overall_score := (process_swing base style).2,
                   is_premium := (uploadUser db user_id style fuid).is_premium },
       { users := (uploadDbAfterResolve db user_id style fuid).users,
         swings := (uploadDbAfterResolve db user_id style fuid).swings ++
           [{ id := fsid, user_id := (uploadUser db user_id style fuid).id,
              s3_video_path := savePath, processed := false,
              overall_score := none, power := none, accuracy := none,
              consistency := none, balance := none, style_score := none,
              style_label := some style, created_at := now }],
         blobs := (uploadDbAfterResolve db user_id style fuid).blobs ++ [savePath] }) := by
  simp [upload_swing, hgate, hext]

/-- The users table after `upload_swing` is exactly the table after the
identity-resolution step. -/
theorem upload_swing_users (db : DB) (filename : String) (user_id : Option String)
    (style : String) (now : Int) (fuid fsid savePath : String) (base : Attrs) :
    ((upload_swing db filename user_id style now fuid fsid savePath base).2).users =
      (uploadDbAfterResolve db user_id style fuid).users := by
  simp only [upload_swing]
  split_ifs <;> rfl

theorem resolveUser_some (db : DB) (uid : String) (u : User) (hne : uid ≠ "")
    (hfind : findUser db uid = some u) : resolveUser db (some uid) = some u := by
  simp [resolveUser, hne, hfind]

/-! ### Claim C1: the entitlement gate -/

/-- C1: for an upload by a resolved user, a premium flag set to true makes
the gate always allow (the plan-limit error is impossible no matter how many
swings exist); a false premium flag makes the handler deny with the
plan-limit error exactly when at least 3 of the user's swings have creation
timestamp ≥ now − 30 days, the count taken before the new row is inserted —
so 3 prior in-window uploads block the 4th. -/
theorem upload_entitlement_gate (db : DB) (filename uid style : String)
    (now : Int) (fuid fsid savePath : String) (base : Attrs) (u : User)
    (hne : uid ≠ "") (hres : findUser db uid = some u) :
    (u.is_premium = true →
      (upload_swing db filename (some uid) style now fuid fsid savePath base).1 ≠
        Except.error planLimitError) ∧
    (u.is_premium = false →
      ((upload_swing db filename (some uid) style now fuid fsid savePath base).1 =
          Except.error planLimitError ↔
        3 ≤ countSwingsInWindow db u.id (now - 30 * 86400))) := by
  have hru : resolveUser db (some uid) = some u := resolveUser_some db uid u hne hres
  have huu : uploadUser db (some uid) style fuid = u := by
    simp [uploadUser, hru]
  have hdb : uploadDbAfterResolve db (some uid) style fuid = db := by
    unfold uploadDbAfterResolve
    rw [hru]
  constructor
  · intro hprem
    have hgate : entitlementAllows (uploadDbAfterResolve db (some uid) style fuid)
        (uploadUser db (some uid) style fuid) now = true := by
      rw [hdb, huu]; simp [entitlementAllows, hprem]
    cases hext : allowedExt filename
    · rw [upload_swing_badfile db filename (some uid) style now fuid fsid savePath base
        hgate hext]
      simp [planLimitError, badFileTypeError]
    · rw [upload_swing_accepted db filename (some uid) style now fuid fsid savePath base
        hgate hext]
      simp
  · intro hfree
    by_cases h3 : 3 ≤ countSwingsInWindow db u.id (now - 30 * 86400)
    · have hgate : entitlementAllows (uploadDbAfterResolve db (some uid) style fuid)
          (uploadUser db (some uid) style fuid) now = false := by
        rw [hdb, huu]
        unfold entitlementAllows
        rw [hfree]
        simp only [Bool.false_or, decide_eq_false_iff_not, not_lt]
        exact h3
      rw [upload_swing_denied db filename (some uid) style now fuid fsid savePath base
        hgate]
      simpa using h3
    · have hgate : entitlementAllows (uploadDbAfterResolve db (some uid) style fuid)
          (uploadUser db (some uid) style fuid) now = true := by
        rw [hdb, huu]
        unfold entitlementAllows
        rw [hfree]
        simp only [Bool.false_or, decide_eq_true_eq]
        omega
      constructor
      · intro hcontra
        exfalso
        cases hext : allowedExt filename
        · rw [upload_swing_badfile db filename (some uid) style now fuid fsid savePath base
            hgate hext] at hcontra
          simp [planLimitError, badFileTypeError] at hcontra
        · rw [upload_swing_accepted db filename (some uid) style now fuid fsid savePath base
            hgate hext] at hcontra
          simp at hcontra
      · intro hcontra
        exact absurd hcontra h3

/-- A swing owned by user "u1", created at time 100. -/
def exampleSwing (sid : String) : Swing :=
  { id := sid, user_id := "u1", s3_video_path := "p", created_at := 100 }

/-- A database with one free user "u1" owning three in-window swings. -/
def freeUserDb : DB :=
  ⟨[{ id := "u1", name := "Guest" }],
   [exampleSwing "s1", exampleSwing "s2", exampleSwing "s3"], []⟩

/-- Witness for C1: the free user of `freeUserDb` has exactly 3 swings in
the window, and their 4th upload is denied with the plan-limit error. -/
theorem upload_entitlement_gate_witness :
    3 ≤ countSwingsInWindow freeUserDb "u1" (100 - 30 * 86400) ∧
    (upload_swing freeUserDb "a.mp4" (some "u1") "classic" 100 "f" "s" "p"
        ⟨60, 60, 60, 60, 60⟩).1 = Except.error planLimitError := by
  have h := upload_entitlement_gate freeUserDb "a.mp4" "u1" "classic" 100 "f" "s" "p"
    ⟨60, 60, 60, 60, 60⟩ { id := "u1", name := "Guest" } (by decide) (by decide)
  exact ⟨by decide, (h.2 rfl).mpr (by decide)⟩

/-! ### Claim C3: the file extension guard -/

/-- C3: when the entitlement gate allows, the upload succeeds exactly when
the filename ends, case-insensitively, with one of .mp4/.mov/.mkv/.avi; on
any other filename it fails with the bad-file-type error, with no blob
stored and no Swing record created; "swing.txt" fails the guard while
"swing.MP4" passes it. -/
theorem upload_file_type_guard (db : DB) (filename : String) (user_id : Option String)
    (style : String) (now : Int) (fuid fsid savePath : String) (base : Attrs)
    (hgate : entitlementAllows (uploadDbAfterResolve db user_id style fuid)
               (uploadUser db user_id style fuid) now = true) :
    ((∃ r, (upload_swing db filename user_id style now fuid fsid savePath base).1 =
        Except.ok r) ↔ allowedExt filename = true) ∧
    (allowedExt filename = false →
      (upload_swing db filename user_id style now fuid fsid savePath base).1 =
          Except.error badFileTypeError ∧
      ((upload_swing db filename user_id style now fuid fsid savePath base).2).swings =
        db.swings ∧
      ((upload_swing db filename user_id style now fuid fsid savePath base).2).blobs =
        db.blobs) ∧
    allowedExt "swing.txt" = false ∧ allowedExt "swing.MP4" = true := by
  refine ⟨?_, ?_, by decide, by decide⟩
  · cases hext : allowedExt filename
    · rw [upload_swing_badfile db filename user_id style now fuid fsid savePath base
        hgate hext]
      simp
    · rw [upload_swing_accepted db filename user_id style now fuid fsid savePath base
        hgate hext]
      simp
  · intro hext
    rw [upload_swing_badfile db filename user_id style now fuid fsid savePath base
      hgate hext]
    exact ⟨rfl, uploadDbAfterResolve_swings db user_id style fuid,
      uploadDbAfterResolve_blobs db user_id style fuid⟩

/-- Witness for C3: on an empty database, "swing.MP4" is accepted and
"swing.txt" is rejected with the bad-file-type error. -/
theorem upload_file_type_guard_witness :
    (∃ r, (upload_swing ⟨[], [], []⟩ "swing.MP4" none "classic" 5 "g" "s" "p"
        ⟨60, 60, 60, 60, 60⟩).1 = Except.ok r) ∧
    (upload_swing ⟨[], [], []⟩ "swing.txt" none "classic" 5 "g" "s" "p"
        ⟨60, 60, 60, 60, 60⟩).1 = Except.error badFileTypeError := by
  have h1 := upload_file_type_guard ⟨[], [], []⟩ "swing.MP4" none "classic" 5 "g" "s" "p"
    ⟨60, 60, 60, 60, 60⟩ (by decide)
  have h2 := upload_file_type_guard ⟨[], [], []⟩ "swing.txt" none "classic" 5 "g" "s" "p"
    ⟨60, 60, 60, 60, 60⟩ (by decide)
  exact ⟨h1.1.mpr (by decide), (h2.2.1 (by decide)).1⟩

/-! ### Claim C4: a denied upload performs no further action -/

/-- C4: whenever the upload handler fails with the plan-limit error, no
swing row is inserted and no blob is stored; the users table is unchanged
except possibly for the guest row created during identity resolution. -/
theorem upload_denied_no_writes (db : DB) (filename : String) (user_id : Option String)
    (style : String) (now : Int) (fuid fsid savePath : String) (base : Attrs)
    (hden : (upload_swing db filename user_id style now fuid fsid savePath base).1 =
      Except.error planLimitError) :
    ((upload_swing db filename user_id style now fuid fsid savePath base).2).swings =
      db.swings ∧
    ((upload_swing db filename user_id style now fuid fsid savePath base).2).blobs =
      db.blobs ∧
    (((upload_swing db filename user_id style now fuid fsid savePath base).2).users =
      db.users ∨
     ((upload_swing db filename user_id style now fuid fsid savePath base).2).users =
      db.users ++ [uploadUser db user_id style fuid]) := by
  cases hgate : entitlementAllows (uploadDbAfterResolve db user_id style fuid)
      (uploadUser db user_id style fuid) now
  · rw [upload_swing_denied db filename user_id style now fuid fsid savePath base hgate]
    exact ⟨uploadDbAfterResolve_swings db user_id style fuid,
      uploadDbAfterResolve_blobs db user_id style fuid,
      uploadDbAfterResolve_users_cases db user_id style fuid⟩
  · exfalso
    cases hext : allowedExt filename
    · rw [upload_swing_badfile db filename user_id style now fuid fsid savePath base
        hgate hext] at hden
      simp [planLimitError, badFileTypeError] at hden
    · rw [upload_swing_accepted db filename user_id style now fuid fsid savePath base
        hgate hext] at hden
      simp at hden

/-- Witness for C4: the denied 4th upload of `freeUserDb`'s user leaves the
swings, blobs and users tables untouched. -/
theorem upload_denied_no_writes_witness :
    ((upload_swing freeUserDb "a.mp4" (some "u1") "classic" 100 "f" "s" "p"
        ⟨60, 60, 60, 60, 60⟩).2).swings = freeUserDb.swings ∧
    ((upload_swing freeUserDb "a.mp4" (some "u1") "classic" 100 "f" "s" "p"
        ⟨60, 60, 60, 60, 60⟩).2).blobs = freeUserDb.blobs ∧
    (((upload_swing freeUserDb "a.mp4" (some "u1") "classic" 100 "f" "s" "p"
        ⟨60, 60, 60, 60, 60⟩).2).users = freeUserDb.users ∨
     ((upload_swing freeUserDb "a.mp4" (some "u1") "classic" 100 "f" "s" "p"
        ⟨60, 60, 60, 60, 60⟩).2).users =
       freeUserDb.users ++ [uploadUser freeUserDb (some "u1") "classic" "f"]) :=
  upload_denied_no_writes freeUserDb "a.mp4" (some "u1") "classic" 100 "f" "s" "p"
    ⟨60, 60, 60, 60, 60⟩ rfl

/-! ### Claim C5: unknown identity creates a Guest user -/

/-- C5: when the supplied identity is absent or resolves to no existing
user, the handler creates a new Guest user (name "Guest", style preference
equal to the request's style selector, premium false, no plan, no handicap)
and the upload is gated by the free-plan rules for that fresh user: it is
denied exactly when the fresh id already owns 3 in-window swings, hence
never denied when the fresh id is genuinely fresh. -/
theorem upload_unknown_user_creates_guest (db : DB) (filename : String)
    (user_id : Option String) (style : String) (now : Int)
    (fuid fsid savePath : String) (base : Attrs)
    (hres : resolveUser db user_id = none) :
    ((upload_swing db filename user_id style now fuid fsid savePath base).2).users =
      db.users ++ [{ id := fuid, name := "Guest", handicap := none,
                     style_choice := style, is_premium := false,
                     subscription_plan := none }] ∧
    ((upload_swing db filename user_id style now fuid fsid savePath base).1 =
        Except.error planLimitError ↔
      3 ≤ countSwingsInWindow db fuid (now - 30 * 86400)) ∧
    ((∀ s ∈ db.swings, s.user_id ≠ fuid) →
      (upload_swing db filename user_id style now fuid fsid savePath base).1 ≠
        Except.error planLimitError) := by
  have huu : uploadUser db user_id style fuid =
      { id := fuid, name := "Guest", handicap := none, style_choice := style,
        is_premium := false, subscription_plan := none } := by
    simp [uploadUser, hres]
  have hgatechar : entitlementAllows (uploadDbAfterResolve db user_id style fuid)
      (uploadUser db user_id style fuid) now =
      decide (countSwingsInWindow db fuid (now - 30 * 86400) < 3) := by
    unfold entitlementAllows
    rw [huu]
    dsimp only
    rw [Bool.false_or,
      countSwingsInWindow_congr _ db fuid (now - 30 * 86400)
        (uploadDbAfterResolve_swings db user_id style fuid)]
  have hiff : (upload_swing db filename user_id style now fuid fsid savePath base).1 =
      Except.error planLimitError ↔
      3 ≤ countSwingsInWindow db fuid (now - 30 * 86400) := by
    by_cases h3 : 3 ≤ countSwingsInWindow db fuid (now - 30 * 86400)
    · have hgate : entitlementAllows (uploadDbAfterResolve db user_id style fuid)
          (uploadUser db user_id style fuid) now = false := by
        rw [hgatechar]
        simp only [decide_eq_false_iff_not, not_lt]
        exact h3
      rw [upload_swing_denied db filename user_id style now fuid fsid savePath base hgate]
      simpa using h3
    · have hgate : entitlementAllows (uploadDbAfterResolve db user_id style fuid)
          (uploadUser db user_id style fuid) now = true := by
        rw [hgatechar]
        simp only [decide_eq_true_eq]
        omega
      constructor
      · intro hcontra
        exfalso
        cases hext : allowedExt filename
        · rw [upload_swing_badfile db filename user_id style now fuid fsid savePath base
            hgate hext] at hcontra
          simp [planLimitError, badFileTypeError] at hcontra
        · rw [upload_swing_accepted db filename user_id style now fuid fsid savePath base
            hgate hext] at hcontra
          simp at hcontra
      · intro hcontra
        exact absurd hcontra h3
  refine ⟨?_, hiff, ?_⟩
  · rw [upload_swing_users db filename user_id style now fuid fsid savePath base]
    unfold uploadDbAfterResolve
    rw [hres, huu]
  · intro hfresh
    have hcount : countSwingsInWindow db fuid (now - 30 * 86400) = 0 := by
      unfold countSwingsInWindow
      rw [List.length_eq_zero, List.filter_eq_nil_iff]
      intro s hs
      simp only [Bool.and_eq_true, beq_iff_eq, decide_eq_true_eq, not_and]
      intro huid
      exact absurd huid (hfresh s hs)
    intro hcontra
    have := hiff.mp hcontra
    omega

/-- Witness for C5: an upload with no user id against the empty database
creates the Guest row and is not denied. -/
theorem upload_unknown_user_creates_guest_witness :
    ((upload_swing ⟨[], [], []⟩ "a.mp4" none "power" 5 "g" "s" "p"
        ⟨60, 60, 60, 60, 60⟩).2).users =
      [{ id := "g", name := "Guest", handicap := none, style_choice := "power",
         is_premium := false, subscription_plan := none }] ∧
    (upload_swing ⟨[], [], []⟩ "a.mp4" none "power" 5 "g" "s" "p"
        ⟨60, 60, 60, 60, 60⟩).1 ≠ Except.error planLimitError := by
  have h := upload_unknown_user_creates_guest ⟨[], [], []⟩ "a.mp4" none "power" 5 "g" "s" "p"
    ⟨60, 60, 60, 60, 60⟩ rfl
  exact ⟨h.1, h.2.2 (by intro s hs; cases hs)⟩

/-! ### Webhook lemmas -/

theorem find_upgradeFirstUser (users : List User) (uid : String) (u : User)
    (h : users.find? (fun x => x.id == uid) = some u) :
    (upgradeFirstUser users uid).find? (fun x => x.id == uid) =
      some { u with is_premium := true, subscription_plan := some "monthly" } := by
  induction users with
  | nil => simp at h
  | cons a rest ih =>
    unfold upgradeFirstUser
    by_cases ha : a.id = uid
    · rw [List.find?_cons_of_pos _ (by simpa using ha)] at h
      cases h
      rw [if_pos ha]
      rw [List.find?_cons_of_pos _ (by simpa using ha)]
    · rw [List.find?_cons_of_neg _ (by simpa using ha)] at h
      rw [if_neg ha]
      rw [List.find?_cons_of_neg _ (by simpa using ha)]
      exact ih h

theorem upgradeFirstUser_not_found (users : List User) (uid : String)
    (h : users.find? (fun x => x.id == uid) = none) :
    upgradeFirstUser users uid = users := by
  induction users with
  | nil => rfl
  | cons a rest ih =>
    by_cases ha : a.id = uid
    · rw [List.find?_cons_of_pos _ (by simpa using ha)] at h
      cases h
    · rw [List.find?_cons_of_neg _ (by simpa using ha)] at h
      unfold upgradeFirstUser
      rw [if_neg ha, ih h]

/-! ### Claim C6: checkout-completed event handling -/

/-- C6: a verified checkout-completed event whose reference matches an
existing user upgrades that user (premium true, plan "monthly") and commits,
answering success; the same event for an unknown reference changes nothing
and surfaces no error (the response is still success). -/
theorem webhook_checkout_completed (db : DB) (ev : StripeEvent) (uid : String)
    (htype : ev.type = "checkout.session.completed")
    (href : ev.client_reference_id = some uid) :
    (∀ u, findUser db uid = some u →
      stripe_webhook db (Except.ok ev) =
        (Except.ok WebhookBody.success,
         { db with users := upgradeFirstUser db.users uid }) ∧
      findUser { db with users := upgradeFirstUser db.users uid } uid =
        some { u with is_premium := true, subscription_plan := some "monthly" }) ∧
    (findUser db uid = none →
      stripe_webhook db (Except.ok ev) = (Except.ok WebhookBody.success, db)) := by
  have hsw : stripe_webhook db (Except.ok ev) =
      (Except.ok WebhookBody.success,
       { db with users := upgradeFirstUser db.users uid }) := by
    unfold stripe_webhook
    dsimp only
    rw [if_pos htype, href]
  constructor
  · intro u hu
    refine ⟨hsw, ?_⟩
    unfold findUser at hu ⊢
    exact find_upgradeFirstUser db.users uid u hu
  · intro hnone
    unfold findUser at hnone
    rw [hsw, upgradeFirstUser_not_found db.users uid hnone]

/-- Witness for C6: the event upgrades `freeUserDb`'s user "u1", and the
same event against the empty database is a no-op with a success response. -/
theorem webhook_checkout_completed_witness :
    findUser ({ freeUserDb with
        users := upgradeFirstUser freeUserDb.users "u1" }) "u1" =
      some { id := "u1", name := "Guest", is_premium := true,
             subscription_plan := some "monthly" } ∧
    stripe_webhook ⟨[], [], []⟩
        (Except.ok ⟨"checkout.session.completed", some "u1"⟩) =
      (Except.ok WebhookBody.success, ⟨[], [], []⟩) := by
  have h1 := webhook_checkout_completed freeUserDb
    ⟨"checkout.session.completed", some "u1"⟩ "u1" rfl rfl
  have h2 := webhook_checkout_completed ⟨[], [], []⟩
    ⟨"checkout.session.completed", some "u1"⟩ "u1" rfl rfl
  exact ⟨(h1.1 { id := "u1", name := "Guest" } (by decide)).2, h2.2 (by decide)⟩

/-! ### Claim C8: the webhook always acknowledges with success -/

/-- C8: for every webhook request, verified or not, the endpoint's HTTP
outcome is a success (never a raised HTTP failure); a verification failure
is swallowed into the returned error body with the database untouched. -/
theorem webhook_always_success (db : DB) (verification : Except String StripeEvent) :
    (∃ body, (stripe_webhook db verification).1 = Except.ok body) ∧
    (∀ e, verification = Except.error e →
      (stripe_webhook db verification).1 = Except.ok (WebhookBody.error e) ∧
      (stripe_webhook db verification).2 = db) := by
  constructor
  · cases verification with
    | error e => exact ⟨WebhookBody.error e, rfl⟩
    | ok ev =>
      unfold stripe_webhook
      dsimp only
      by_cases ht : ev.type = "checkout.session.completed"
      · rw [if_pos ht]
        cases ev.client_reference_id with
        | none => exact ⟨WebhookBody.success, rfl⟩
        | some uid => exact ⟨WebhookBody.success, rfl⟩
      · rw [if_neg ht]
        exact ⟨WebhookBody.success, rfl⟩
  · intro e he
    subst he
    exact ⟨rfl, rfl⟩

/-- Witness for C8: a request whose signature verification raises is still
acknowledged, with the error reported only in the body. -/
theorem webhook_always_success_witness :
    (∃ body, (stripe_webhook freeUserDb (Except.error "bad signature")).1 =
      Except.ok body) ∧
    (stripe_webhook freeUserDb (Except.error "bad signature")).1 =
      Except.ok (WebhookBody.error "bad signature") ∧
    (stripe_webhook freeUserDb (Except.error "bad signature")).2 = freeUserDb := by
  have h := webhook_always_success freeUserDb (Except.error "bad signature")
  exact ⟨h.1, h.2 "bad signature" rfl⟩

/-! ### Claim C7: identity immutability and premium monotonicity -/

theorem mem_upgradeFirstUser (users : List User) (uid : String) (u : User)
    (hu : u ∈ users) :
    ∃ u' ∈ upgradeFirstUser users uid, u'.id = u.id ∧
      (u.is_premium = true → u'.is_premium = true) := by
  induction users with
  | nil => cases hu
  | cons a rest ih =>
    unfold upgradeFirstUser
    by_cases ha : a.id = uid
    · rw [if_pos ha]
      cases hu with
      | head =>
        exact ⟨{ u with is_premium := true, subscription_plan := some "monthly" },
          List.mem_cons_self _ _, rfl, fun _ => rfl⟩
      | tail _ hmem => exact ⟨u, List.mem_cons_of_mem _ hmem, rfl, fun h => h⟩
    · rw [if_neg ha]
      cases hu with
      | head => exact ⟨u, List.mem_cons_self _ _, rfl, fun h => h⟩
      | tail _ hmem =>
        obtain ⟨u', hmem', hid, hprem⟩ := ih hmem
        exact ⟨u', List.mem_cons_of_mem _ hmem', hid, hprem⟩

/-- C7: across every operation of the system, each existing user survives
with an unchanged identity, and the premium flag never transitions from
true back to false. -/
theorem user_identity_premium_invariant (db db' : DB) (hstep : Step db db') :
    ∀ u ∈ db.users, ∃ u' ∈ db'.users, u'.id = u.id ∧
      (u.is_premium = true → u'.is_premium = true) := by
  intro u hu
  cases hstep with
  | ensureUser fuid =>
    exact ⟨u, List.mem_append_left _ hu, rfl, fun h => h⟩
  | uploadSwing filename user_id style now fuid fsid savePath base =>
    have husers := upload_swing_users db filename user_id style now fuid fsid savePath base
    rcases uploadDbAfterResolve_users_cases db user_id style fuid with hcase | hcase
    · exact ⟨u, by rw [husers, hcase]; exact hu, rfl, fun h => h⟩
    · exact ⟨u, by rw [husers, hcase]; exact List.mem_append_left _ hu, rfl, fun h => h⟩
  | stripeWebhook verification =>
    cases verification with
    | error e => exact ⟨u, hu, rfl, fun h => h⟩
    | ok ev =>
      by_cases ht : ev.type = "checkout.session.completed"
      · cases href : ev.client_reference_id with
        | none =>
          have heq : (stripe_webhook db (Except.ok ev)).2 = db := by
            unfold stripe_webhook
            dsimp only
            rw [if_pos ht, href]
          rw [heq]
          exact ⟨u, hu, rfl, fun h => h⟩
        | some uid =>
          have heq : (stripe_webhook db (Except.ok ev)).2 =
              { db with users := upgradeFirstUser db.users uid } := by
            unfold stripe_webhook
            dsimp only
            rw [if_pos ht, href]
          rw [heq]
          exact mem_upgradeFirstUser db.users uid u hu
      · have heq : (stripe_webhook db (Except.ok ev)).2 = db := by
          unfold stripe_webhook
          dsimp only
          rw [if_neg ht]
        rw [heq]
        exact ⟨u, hu, rfl, fun h => h⟩
  | readonly => exact ⟨u, hu, rfl, fun h => h⟩

/-- Witness for C7: the checkout webhook step over `freeUserDb` preserves
user "u1"'s identity and premium monotonicity. -/
theorem user_identity_premium_invariant_witness :
    ∃ u' ∈ ((stripe_webhook freeUserDb
        (Except.ok ⟨"checkout.session.completed", some "u1"⟩)).2).users,
      u'.id = ({ id := "u1", name := "Guest" } : User).id ∧
      (({ id := "u1", name := "Guest" } : User).is_premium = true →
        u'.is_premium = true) :=
  user_identity_premium_invariant freeUserDb _
    (Step.stripeWebhook freeUserDb
      (Except.ok ⟨"checkout.session.completed", some "u1"⟩))
    { id := "u1", name := "Guest" } (by decide)

/-! ### Claim C10: swing rows are never processed or scored -/

/-- A swing row as inserted by the upload handler: processed is false and
every score column is null. -/
def swingUnscored (s : Swing) : Prop :=
  s.processed = false ∧ s.overall_score = none ∧ s.power = none ∧
  s.accuracy = none ∧ s.consistency = none ∧ s.balance = none ∧
  s.style_score = none

instance (s : Swing) : Decidable (swingUnscored s) := by
  unfold swingUnscored; infer_instance

/-- C10: every operation preserves the invariant that each persisted swing
has processed = false and all five attribute columns and the overall column
null — the scores computed during upload are never written back. -/
theorem swings_never_scored (db db' : DB) (hstep : Step db db')
    (hinv : ∀ s ∈ db.swings, swingUnscored s) :
    ∀ s ∈ db'.swings, swingUnscored s := by
  cases hstep with
  | ensureUser fuid => exact hinv
  | uploadSwing filename user_id style now fuid fsid savePath base =>
    intro s hs
    cases hgate : entitlementAllows (uploadDbAfterResolve db user_id style fuid)
        (uploadUser db user_id style fuid) now
    · rw [upload_swing_denied db filename user_id style now fuid fsid savePath base
        hgate] at hs
      rw [show ((Except.error planLimitError,
          uploadDbAfterResolve db user_id style fuid) :
            Except HTTPError UploadResponse × DB).2 =
          uploadDbAfterResolve db user_id style fuid from rfl,
        uploadDbAfterResolve_swings db user_id style fuid] at hs
      exact hinv s hs
    · cases hext : allowedExt filename
      · rw [upload_swing_badfile db filename user_id style now fuid fsid savePath base
          hgate hext] at hs
        rw [show ((Except.error badFileTypeError,
            uploadDbAfterResolve db user_id style fuid) :
              Except HTTPError UploadResponse × DB).2 =
            uploadDbAfterResolve db user_id style fuid from rfl,
          uploadDbAfterResolve_swings db user_id style fuid] at hs
        exact hinv s hs
      · rw [upload_swing_accepted db filename user_id style now fuid fsid savePath base
          hgate hext] at hs
        dsimp only at hs
        rw [uploadDbAfterResolve_swings db user_id style fuid] at hs
        rcases List.mem_append.mp hs with hmem | hmem
        · exact hinv s hmem
        · rcases List.mem_singleton.mp hmem with rfl
          exact ⟨rfl, rfl, rfl, rfl, rfl, rfl, rfl⟩
  | stripeWebhook verification =>
    have heq : ((stripe_webhook db verification).2).swings = db.swings := by
      cases verification with
      | error e => rfl
      | ok ev =>
        unfold stripe_webhook
        dsimp only
        by_cases ht : ev.type = "checkout.session.completed"
        · rw [if_pos ht]
          cases ev.client_reference_id with
          | none => rfl
          | some uid => rfl
        · rw [if_neg ht]
    rw [heq]
    exact hinv
  | readonly => exact hinv

/-- Witness for C10: the swing row inserted by an accepted upload on the
empty database is unprocessed and unscored. -/
theorem swings_never_scored_witness :
    swingUnscored { id := "s", user_id := "g", s3_video_path := "p",
                    processed := false, style_label := some "classic",
                    created_at := 5 } :=
  swings_never_scored ⟨[], [], []⟩ _
    (Step.uploadSwing ⟨[], [], []⟩ "a.mp4" none "classic" 5 "g" "s" "p"
      ⟨60, 60, 60, 60, 60⟩)
    (by intro s hs; cases hs)
    { id := "s", user_id := "g", s3_video_path := "p", processed := false,
      style_label := some "classic", created_at := 5 } (by decide)

/-- Counterexample to C3 as stated over every upload request: the filename
"b.mp4" has an accepted extension, yet the request of `freeUserDb`'s
quota-exhausted free user is not accepted — the entitlement gate runs first
and the handler fails with the plan-limit error, not with acceptance or the
bad-file-type error. -/
theorem upload_file_type_guard_counterexample :
    allowedExt "b.mp4" = true ∧
    (upload_swing freeUserDb "b.mp4" (some "u1") "classic" 100 "f" "s" "p"
        ⟨60, 60, 60, 60, 60⟩).1 = Except.error planLimitError :=
  ⟨by decide, rfl⟩
